import Mathlib

/-!
Verification of the annotation-directive configuration core of go-enum.

The repository holds two implementations of the same configuration core:
a dynamically typed one (`EnumConfigValue` storing an `interface{}` box)
and a generic one (`EnumConfigValue[T]`).  Both are embedded below, the
first in namespace `Dyn`, the second in namespace `Gen`, together with
the shared directive grammar (`classify`), and the claimed properties of
`ParseAnnotation`, `setBoolOption`, `setStringOption`, `GetBool` and
`GetString` are settled against them.

Strings are handled as `List Char`; the byte-level quote stripping of the
source coincides with the character-level one because the quote characters
are ASCII and can be neither a leading nor a trailing byte of a longer
UTF-8 sequence.
-/

set_option maxHeartbeats 1000000

/-- Whitespace as recognized by the trimming in the source (the Latin-1
fast path of the runtime's space test used by `strings.TrimSpace`). -/
def goIsSpace (c : Char) : Bool :=
  c = ' ' || c = '\t' || c = '\n' || c = '\u000B' || c = '\u000C' || c = '\r' ||
  c = '\u0085' || c = '\u00A0'

/-- `strings.TrimSpace`: drop whitespace from both ends. -/
def goTrimSpace (l : List Char) : List Char :=
  ((l.dropWhile goIsSpace).reverse.dropWhile goIsSpace).reverse

/-- `strings.SplitN(s, sep, 2)` for a one-character separator that occurs in
`s`: the part before the first occurrence and the part after it.  (When the
separator does not occur the pair `(s, [])` is returned; the source only
splits after a containment check.) -/
def splitOnFirst (sep : Char) : List Char → List Char × List Char
  | [] => ([], [])
  | c :: cs =>
    if c = sep then ([], cs)
    else
      let p := splitOnFirst sep cs
      (c :: p.1, p.2)

/-- The double-quote character `"`. -/
def dquote : Char := Char.ofNat 34

/-- The single-quote character. -/
def squote : Char := Char.ofNat 39

/-- Strip one layer of surrounding matching quotes (`"…"` or single-quoted),
as both `key:value` and `key=value` branches of the source do:
`value = value[1 : len(value)-1]` guarded by length ≥ 2 and equal quote
characters at both ends. -/
def stripQuotes (l : List Char) : List Char :=
  if 2 ≤ l.length ∧
      ((l.head? = some dquote ∧ l.getLast? = some dquote) ∨
       (l.head? = some squote ∧ l.getLast? = some squote)) then
    (l.drop 1).dropLast
  else l

/-- The classification a directive string receives in `ParseAnnotation`
(lines 76–126 of the source): a no-op for the empty (post-trim) string, a
missing-marker error, a boolean option, or a string option.  Both versions
of the source share this control flow verbatim. -/
inductive Directive
  | nop
  | badMarker (orig : String)
  | boolOpt (key : String) (value : Bool)
  | strOpt (key : String) (value : String)
deriving DecidableEq

/-- The grammar of `ParseAnnotation`: trim the whole directive; empty is a
no-op; no `@` marker is an error; otherwise drop the marker, try the
`key:value` form (boolean when the trimmed value is literally `true` or
`false`, string otherwise, with quote stripping), then the legacy
`key=value` form (string path only), then the bare-key form (boolean
`true`, the key NOT separately trimmed, exactly as in the source). -/
def classify (raw : String) : Directive :=
  if goTrimSpace raw.data = [] then Directive.nop
  else if (goTrimSpace raw.data).head? ≠ some '@' then
    Directive.badMarker (String.mk (goTrimSpace raw.data))
  else if ((goTrimSpace raw.data).tail.contains ':') = true then
    if goTrimSpace (splitOnFirst ':' (goTrimSpace raw.data).tail).2 = "true".data ∨
        goTrimSpace (splitOnFirst ':' (goTrimSpace raw.data).tail).2 = "false".data then
      Directive.boolOpt (String.mk (goTrimSpace (splitOnFirst ':' (goTrimSpace raw.data).tail).1))
        (decide (goTrimSpace (splitOnFirst ':' (goTrimSpace raw.data).tail).2 = "true".data))
    else
      Directive.strOpt (String.mk (goTrimSpace (splitOnFirst ':' (goTrimSpace raw.data).tail).1))
        (String.mk (stripQuotes (goTrimSpace (splitOnFirst ':' (goTrimSpace raw.data).tail).2)))
  else if ((goTrimSpace raw.data).tail.contains '=') = true then
    Directive.strOpt (String.mk (goTrimSpace (splitOnFirst '=' (goTrimSpace raw.data).tail).1))
      (String.mk (stripQuotes (goTrimSpace (splitOnFirst '=' (goTrimSpace raw.data).tail).2)))
  else
    Directive.boolOpt (String.mk (goTrimSpace raw.data).tail) true

/-- The dynamic value box held by the untyped `EnumConfigValue`: an
`interface{}` that is nil in a fresh slot and otherwise holds the bool or
string the option setters store. -/
inductive GoValue
  | vnil
  | vbool (b : Bool)
  | vstr (s : String)
deriving DecidableEq

namespace Dyn

/-- `EnumConfigValue` of the dynamically typed version: a value box plus a
validity flag; the zero value is a nil box with `Valid = false`. -/
structure EnumConfigValue where
  Value : GoValue := GoValue.vnil
  Valid : Bool := false
deriving DecidableEq

/-- `GetBool`: the stored value when the slot is valid and the box holds a
bool (the type assertion succeeds), otherwise the caller's default. -/
def EnumConfigValue.GetBool (v : EnumConfigValue) (defaultValue : Bool) : Bool :=
  if v.Valid then
    match v.Value with
    | GoValue.vbool b => b
    | _ => defaultValue
  else defaultValue

/-- `GetString`: the stored value when the slot is valid and the box holds
a string, otherwise the caller's default. -/
def EnumConfigValue.GetString (v : EnumConfigValue) (defaultValue : String) : String :=
  if v.Valid then
    match v.Value with
    | GoValue.vstr s => s
    | _ => defaultValue
  else defaultValue

/-- `EnumConfig` of the dynamically typed version: nineteen boolean option
slots and the one string option slot. -/
structure EnumConfig where
  NoPrefix : EnumConfigValue := {}
  NoIota : EnumConfigValue := {}
  LowercaseLookup : EnumConfigValue := {}
  CaseInsensitive : EnumConfigValue := {}
  Marshal : EnumConfigValue := {}
  SQL : EnumConfigValue := {}
  SQLInt : EnumConfigValue := {}
  Flag : EnumConfigValue := {}
  Names : EnumConfigValue := {}
  Values : EnumConfigValue := {}
  LeaveSnakeCase : EnumConfigValue := {}
  Ptr : EnumConfigValue := {}
  SQLNullInt : EnumConfigValue := {}
  SQLNullStr : EnumConfigValue := {}
  MustParse : EnumConfigValue := {}
  ForceLower : EnumConfigValue := {}
  ForceUpper : EnumConfigValue := {}
  NoComments : EnumConfigValue := {}
  NoParse : EnumConfigValue := {}
  Prefix : EnumConfigValue := {}
deriving DecidableEq

/-- `NewEnumConfig`: the fresh configuration, every slot unset. -/
def NewEnumConfig : EnumConfig := {}

/-- `setBoolOption` (lines 129–177): the switch over the recognized boolean
keys; `nocase` additionally forces `LowercaseLookup` true when enabled; an
unrecognized key is an error and the receiver is left untouched.  The
result pairs the updated configuration with the returned error. -/
def setBoolOption (ec : EnumConfig) (key : String) (value : Bool) :
    EnumConfig × Option String :=
  if key = "noprefix" then ({ ec with NoPrefix := { Value := GoValue.vbool value, Valid := true } }, none)
  else if key = "noiota" then ({ ec with NoIota := { Value := GoValue.vbool value, Valid := true } }, none)
  else if key = "lower" then ({ ec with LowercaseLookup := { Value := GoValue.vbool value, Valid := true } }, none)
  else if key = "nocase" then
    if value then
      ({ ec with CaseInsensitive := { Value := GoValue.vbool value, Valid := true },
                 LowercaseLookup := { Value := GoValue.vbool true, Valid := true } }, none)
    else
      ({ ec with CaseInsensitive := { Value := GoValue.vbool value, Valid := true } }, none)
  else if key = "marshal" then ({ ec with Marshal := { Value := GoValue.vbool value, Valid := true } }, none)
  else if key = "sql" then ({ ec with SQL := { Value := GoValue.vbool value, Valid := true } }, none)
  else if key = "sqlint" then ({ ec with SQLInt := { Value := GoValue.vbool value, Valid := true } }, none)
  else if key = "flag" then ({ ec with Flag := { Value := GoValue.vbool value, Valid := true } }, none)
  else if key = "names" then ({ ec with Names := { Value := GoValue.vbool value, Valid := true } }, none)
  else if key = "values" then ({ ec with Values := { Value := GoValue.vbool value, Valid := true } }, none)
  else if key = "nocamel" then ({ ec with LeaveSnakeCase := { Value := GoValue.vbool value, Valid := true } }, none)
  else if key = "ptr" then ({ ec with Ptr := { Value := GoValue.vbool value, Valid := true } }, none)
  else if key = "sqlnullint" then ({ ec with SQLNullInt := { Value := GoValue.vbool value, Valid := true } }, none)
  else if key = "sqlnullstr" then ({ ec with SQLNullStr := { Value := GoValue.vbool value, Valid := true } }, none)
  else if key = "mustparse" then ({ ec with MustParse := { Value := GoValue.vbool value, Valid := true } }, none)
  else if key = "forcelower" then ({ ec with ForceLower := { Value := GoValue.vbool value, Valid := true } }, none)
  else if key = "forceupper" then ({ ec with ForceUpper := { Value := GoValue.vbool value, Valid := true } }, none)
  else if key = "nocomments" then ({ ec with NoComments := { Value := GoValue.vbool value, Valid := true } }, none)
  else if key = "noparse" then ({ ec with NoParse := { Value := GoValue.vbool value, Valid := true } }, none)
  else (ec, some ("unknown annotation: @" ++ key))

/-- `setStringOption` (lines 180–188): only `prefix` is recognized. -/
def setStringOption (ec : EnumConfig) (key value : String) :
    EnumConfig × Option String :=
  if key = "prefix" then
    ({ ec with Prefix := { Value := GoValue.vstr value, Valid := true } }, none)
  else (ec, some ("unknown annotation with value: @" ++ key ++ "=" ++ value))

/-- Dispatch of a classified directive onto the option setters, exactly the
return statements of `ParseAnnotation`. -/
def applyDirective (ec : EnumConfig) : Directive → EnumConfig × Option String
  | Directive.nop => (ec, none)
  | Directive.badMarker s => (ec, some ("annotation must start with @: " ++ s))
  | Directive.boolOpt k v => setBoolOption ec k v
  | Directive.strOpt k v => setStringOption ec k v

/-- `ParseAnnotation` of the dynamically typed version: classify the raw
directive and apply it. -/
def ParseAnnotation (ec : EnumConfig) (raw : String) : EnumConfig × Option String :=
  applyDirective ec (classify raw)

/-- The validity flags of all twenty slots, in declaration order. -/
def validFlags (ec : EnumConfig) : List Bool :=
  [ec.NoPrefix.Valid, ec.NoIota.Valid, ec.LowercaseLookup.Valid,
   ec.CaseInsensitive.Valid, ec.Marshal.Valid, ec.SQL.Valid, ec.SQLInt.Valid,
   ec.Flag.Valid, ec.Names.Valid, ec.Values.Valid, ec.LeaveSnakeCase.Valid,
   ec.Ptr.Valid, ec.SQLNullInt.Valid, ec.SQLNullStr.Valid, ec.MustParse.Valid,
   ec.ForceLower.Valid, ec.ForceUpper.Valid, ec.NoComments.Valid,
   ec.NoParse.Valid, ec.Prefix.Valid]

/-- How many slots are set. -/
def setCount (ec : EnumConfig) : Nat := (validFlags ec).count true

/-- The slot a recognized key addresses, following the switches of
`setBoolOption` and `setStringOption`; an unrecognized key reads as an
unset slot. -/
def slotOf (key : String) (ec : EnumConfig) : EnumConfigValue :=
  if key = "noprefix" then ec.NoPrefix
  else if key = "noiota" then ec.NoIota
  else if key = "lower" then ec.LowercaseLookup
  else if key = "nocase" then ec.CaseInsensitive
  else if key = "marshal" then ec.Marshal
  else if key = "sql" then ec.SQL
  else if key = "sqlint" then ec.SQLInt
  else if key = "flag" then ec.Flag
  else if key = "names" then ec.Names
  else if key = "values" then ec.Values
  else if key = "nocamel" then ec.LeaveSnakeCase
  else if key = "ptr" then ec.Ptr
  else if key = "sqlnullint" then ec.SQLNullInt
  else if key = "sqlnullstr" then ec.SQLNullStr
  else if key = "mustparse" then ec.MustParse
  else if key = "forcelower" then ec.ForceLower
  else if key = "forceupper" then ec.ForceUpper
  else if key = "nocomments" then ec.NoComments
  else if key = "noparse" then ec.NoParse
  else if key = "prefix" then ec.Prefix
  else {}

/-- Apply a list of directives in order, collecting each call's outcome. -/
def runFrom (ec : EnumConfig) : List String → EnumConfig × List (Option String)
  | [] => (ec, [])
  | a :: rest =>
    let p := ParseAnnotation ec a
    let q := runFrom p.1 rest
    (q.1, p.2 :: q.2)

end Dyn

/-- The recognized boolean keys, in the order of the switch. -/
def boolKeys : List String :=
  ["noprefix", "noiota", "lower", "nocase", "marshal", "sql", "sqlint",
   "flag", "names", "values", "nocamel", "ptr", "sqlnullint", "sqlnullstr",
   "mustparse", "forcelower", "forceupper", "nocomments", "noparse"]

namespace Gen

/-- `EnumConfigValue[T]` of the generic version: a typed value with its
validity flag. -/
structure EnumConfigValue (T : Type) where
  Value : T
  Valid : Bool
deriving DecidableEq

/-- `GetBool` of the generic version: the stored value when valid,
otherwise the default. -/
def EnumConfigValue.GetBool (v : EnumConfigValue Bool) (def' : Bool) : Bool :=
  if v.Valid then v.Value else def'

/-- `GetString` of the generic version: the stored value when valid,
otherwise the default. -/
def EnumConfigValue.GetString (v : EnumConfigValue String) (def' : String) : String :=
  if v.Valid then v.Value else def'

/-- `EnumConfig` of the generic version. -/
structure EnumConfig where
  NoPrefix : EnumConfigValue Bool := { Value := false, Valid := false }
  NoIota : EnumConfigValue Bool := { Value := false, Valid := false }
  LowercaseLookup : EnumConfigValue Bool := { Value := false, Valid := false }
  CaseInsensitive : EnumConfigValue Bool := { Value := false, Valid := false }
  Marshal : EnumConfigValue Bool := { Value := false, Valid := false }
  SQL : EnumConfigValue Bool := { Value := false, Valid := false }
  SQLInt : EnumConfigValue Bool := { Value := false, Valid := false }
  Flag : EnumConfigValue Bool := { Value := false, Valid := false }
  Names : EnumConfigValue Bool := { Value := false, Valid := false }
  Values : EnumConfigValue Bool := { Value := false, Valid := false }
  LeaveSnakeCase : EnumConfigValue Bool := { Value := false, Valid := false }
  Ptr : EnumConfigValue Bool := { Value := false, Valid := false }
  SQLNullInt : EnumConfigValue Bool := { Value := false, Valid := false }
  SQLNullStr : EnumConfigValue Bool := { Value := false, Valid := false }
  MustParse : EnumConfigValue Bool := { Value := false, Valid := false }
  ForceLower : EnumConfigValue Bool := { Value := false, Valid := false }
  ForceUpper : EnumConfigValue Bool := { Value := false, Valid := false }
  NoComments : EnumConfigValue Bool := { Value := false, Valid := false }
  NoParse : EnumConfigValue Bool := { Value := false, Valid := false }
  Prefix : EnumConfigValue String := { Value := "", Valid := false }
deriving DecidableEq

/-- `NewEnumConfig` of the generic version: the zero value, every slot
unset with the zero value of its type. -/
def NewEnumConfig : EnumConfig := {}

/-- `setBoolOption` of the generic version (lines 312–360): the same
switch, storing typed booleans. -/
def setBoolOption (ec : EnumConfig) (key : String) (value : Bool) :
    EnumConfig × Option String :=
  if key = "noprefix" then ({ ec with NoPrefix := { Value := value, Valid := true } }, none)
  else if key = "noiota" then ({ ec with NoIota := { Value := value, Valid := true } }, none)
  else if key = "lower" then ({ ec with LowercaseLookup := { Value := value, Valid := true } }, none)
  else if key = "nocase" then
    if value then
      ({ ec with CaseInsensitive := { Value := value, Valid := true },
                 LowercaseLookup := { Value := true, Valid := true } }, none)
    else
      ({ ec with CaseInsensitive := { Value := value, Valid := true } }, none)
  else if key = "marshal" then ({ ec with Marshal := { Value := value, Valid := true } }, none)
  else if key = "sql" then ({ ec with SQL := { Value := value, Valid := true } }, none)
  else if key = "sqlint" then ({ ec with SQLInt := { Value := value, Valid := true } }, none)
  else if key = "flag" then ({ ec with Flag := { Value := value, Valid := true } }, none)
  else if key = "names" then ({ ec with Names := { Value := value, Valid := true } }, none)
  else if key = "values" then ({ ec with Values := { Value := value, Valid := true } }, none)
  else if key = "nocamel" then ({ ec with LeaveSnakeCase := { Value := value, Valid := true } }, none)
  else if key = "ptr" then ({ ec with Ptr := { Value := value, Valid := true } }, none)
  else if key = "sqlnullint" then ({ ec with SQLNullInt := { Value := value, Valid := true } }, none)
  else if key = "sqlnullstr" then ({ ec with SQLNullStr := { Value := value, Valid := true } }, none)
  else if key = "mustparse" then ({ ec with MustParse := { Value := value, Valid := true } }, none)
  else if key = "forcelower" then ({ ec with ForceLower := { Value := value, Valid := true } }, none)
  else if key = "forceupper" then ({ ec with ForceUpper := { Value := value, Valid := true } }, none)
  else if key = "nocomments" then ({ ec with NoComments := { Value := value, Valid := true } }, none)
  else if key = "noparse" then ({ ec with NoParse := { Value := value, Valid := true } }, none)
  else (ec, some ("unknown annotation: @" ++ key))

/-- `setStringOption` of the generic version (lines 363–371). -/
def setStringOption (ec : EnumConfig) (key value : String) :
    EnumConfig × Option String :=
  if key = "prefix" then
    ({ ec with Prefix := { Value := value, Valid := true } }, none)
  else (ec, some ("unknown annotation with value: @" ++ key ++ "=" ++ value))

/-- Dispatch of a classified directive, as in the generic
`ParseAnnotation`. -/
def applyDirective (ec : EnumConfig) : Directive → EnumConfig × Option String
  | Directive.nop => (ec, none)
  | Directive.badMarker s => (ec, some ("annotation must start with @: " ++ s))
  | Directive.boolOpt k v => setBoolOption ec k v
  | Directive.strOpt k v => setStringOption ec k v

/-- `ParseAnnotation` of the generic version (lines 259–309): the control
flow is character-for-character that of the dynamic version. -/
def ParseAnnotation (ec : EnumConfig) (raw : String) : EnumConfig × Option String :=
  applyDirective ec (classify raw)

/-- Apply a list of directives in order, collecting each call's outcome. -/
def runFrom (ec : EnumConfig) : List String → EnumConfig × List (Option String)
  | [] => (ec, [])
  | a :: rest =>
    let p := ParseAnnotation ec a
    let q := runFrom p.1 rest
    (q.1, p.2 :: q.2)

end Gen

/-- A dynamic boolean slot and a generic boolean slot agree: same validity
flag, and when valid the dynamic box holds exactly the generic boolean. -/
def relB (d : Dyn.EnumConfigValue) (g : Gen.EnumConfigValue Bool) : Prop :=
  d.Valid = g.Valid ∧ (d.Valid = true → d.Value = GoValue.vbool g.Value)

/-- A dynamic string slot and a generic string slot agree. -/
def relS (d : Dyn.EnumConfigValue) (g : Gen.EnumConfigValue String) : Prop :=
  d.Valid = g.Valid ∧ (d.Valid = true → d.Value = GoValue.vstr g.Value)

/-- A dynamic configuration and a generic configuration agree slot by
slot. -/
def rel (c : Dyn.EnumConfig) (g : Gen.EnumConfig) : Prop :=
  relB c.NoPrefix g.NoPrefix ∧ relB c.NoIota g.NoIota ∧
  relB c.LowercaseLookup g.LowercaseLookup ∧
  relB c.CaseInsensitive g.CaseInsensitive ∧ relB c.Marshal g.Marshal ∧
  relB c.SQL g.SQL ∧ relB c.SQLInt g.SQLInt ∧ relB c.Flag g.Flag ∧
  relB c.Names g.Names ∧ relB c.Values g.Values ∧
  relB c.LeaveSnakeCase g.LeaveSnakeCase ∧ relB c.Ptr g.Ptr ∧
  relB c.SQLNullInt g.SQLNullInt ∧ relB c.SQLNullStr g.SQLNullStr ∧
  relB c.MustParse g.MustParse ∧ relB c.ForceLower g.ForceLower ∧
  relB c.ForceUpper g.ForceUpper ∧ relB c.NoComments g.NoComments ∧
  relB c.NoParse g.NoParse ∧ relS c.Prefix g.Prefix

/-- All `GetBool` and `GetString` reads, with equal defaults, agree between
a dynamic configuration and a generic one. -/
def readsAgree (c : Dyn.EnumConfig) (g : Gen.EnumConfig) : Prop :=
  (∀ d : Bool,
    c.NoPrefix.GetBool d = g.NoPrefix.GetBool d ∧
    c.NoIota.GetBool d = g.NoIota.GetBool d ∧
    c.LowercaseLookup.GetBool d = g.LowercaseLookup.GetBool d ∧
    c.CaseInsensitive.GetBool d = g.CaseInsensitive.GetBool d ∧
    c.Marshal.GetBool d = g.Marshal.GetBool d ∧
    c.SQL.GetBool d = g.SQL.GetBool d ∧
    c.SQLInt.GetBool d = g.SQLInt.GetBool d ∧
    c.Flag.GetBool d = g.Flag.GetBool d ∧
    c.Names.GetBool d = g.Names.GetBool d ∧
    c.Values.GetBool d = g.Values.GetBool d ∧
    c.LeaveSnakeCase.GetBool d = g.LeaveSnakeCase.GetBool d ∧
    c.Ptr.GetBool d = g.Ptr.GetBool d ∧
    c.SQLNullInt.GetBool d = g.SQLNullInt.GetBool d ∧
    c.SQLNullStr.GetBool d = g.SQLNullStr.GetBool d ∧
    c.MustParse.GetBool d = g.MustParse.GetBool d ∧
    c.ForceLower.GetBool d = g.ForceLower.GetBool d ∧
    c.ForceUpper.GetBool d = g.ForceUpper.GetBool d ∧
    c.NoComments.GetBool d = g.NoComments.GetBool d ∧
    c.NoParse.GetBool d = g.NoParse.GetBool d) ∧
  (∀ d : String, c.Prefix.GetString d = g.Prefix.GetString d)

/-- The claimed standing invariant: a CaseInsensitive slot that is set true
implies a LowercaseLookup slot that is set true. -/
def CIimpliesLL (ec : Dyn.EnumConfig) : Prop :=
  ec.CaseInsensitive = { Value := GoValue.vbool true, Valid := true } →
  ec.LowercaseLookup = { Value := GoValue.vbool true, Valid := true }


theorem classify_nop (s : String) (h : classify s = Directive.nop) :
    goTrimSpace s.data = [] := by
  unfold classify at h
  split_ifs at h
  simp_all

theorem setBool_defaultD (c : Dyn.EnumConfig) (k : String) (v : Bool)
    (h1 : k ≠ "noprefix") (h2 : k ≠ "noiota") (h3 : k ≠ "lower")
    (h4 : k ≠ "nocase") (h5 : k ≠ "marshal") (h6 : k ≠ "sql")
    (h7 : k ≠ "sqlint") (h8 : k ≠ "flag") (h9 : k ≠ "names")
    (h10 : k ≠ "values") (h11 : k ≠ "nocamel") (h12 : k ≠ "ptr")
    (h13 : k ≠ "sqlnullint") (h14 : k ≠ "sqlnullstr") (h15 : k ≠ "mustparse")
    (h16 : k ≠ "forcelower") (h17 : k ≠ "forceupper") (h18 : k ≠ "nocomments")
    (h19 : k ≠ "noparse") :
    Dyn.setBoolOption c k v = (c, some ("unknown annotation: @" ++ k)) := by
  unfold Dyn.setBoolOption
  rw [if_neg h1, if_neg h2, if_neg h3, if_neg h4, if_neg h5, if_neg h6,
    if_neg h7, if_neg h8, if_neg h9, if_neg h10, if_neg h11, if_neg h12,
    if_neg h13, if_neg h14, if_neg h15, if_neg h16, if_neg h17, if_neg h18,
    if_neg h19]

theorem setBool_defaultG (g : Gen.EnumConfig) (k : String) (v : Bool)
    (h1 : k ≠ "noprefix") (h2 : k ≠ "noiota") (h3 : k ≠ "lower")
    (h4 : k ≠ "nocase") (h5 : k ≠ "marshal") (h6 : k ≠ "sql")
    (h7 : k ≠ "sqlint") (h8 : k ≠ "flag") (h9 : k ≠ "names")
    (h10 : k ≠ "values") (h11 : k ≠ "nocamel") (h12 : k ≠ "ptr")
    (h13 : k ≠ "sqlnullint") (h14 : k ≠ "sqlnullstr") (h15 : k ≠ "mustparse")
    (h16 : k ≠ "forcelower") (h17 : k ≠ "forceupper") (h18 : k ≠ "nocomments")
    (h19 : k ≠ "noparse") :
    Gen.setBoolOption g k v = (g, some ("unknown annotation: @" ++ k)) := by
  unfold Gen.setBoolOption
  rw [if_neg h1, if_neg h2, if_neg h3, if_neg h4, if_neg h5, if_neg h6,
    if_neg h7, if_neg h8, if_neg h9, if_neg h10, if_neg h11, if_neg h12,
    if_neg h13, if_neg h14, if_neg h15, if_neg h16, if_neg h17, if_neg h18,
    if_neg h19]

theorem setStr_defaultD (c : Dyn.EnumConfig) (k v : String)
    (h : k ≠ "prefix") :
    Dyn.setStringOption c k v =
      (c, some ("unknown annotation with value: @" ++ k ++ "=" ++ v)) := by
  unfold Dyn.setStringOption
  rw [if_neg h]

theorem setStr_defaultG (g : Gen.EnumConfig) (k v : String)
    (h : k ≠ "prefix") :
    Gen.setStringOption g k v =
      (g, some ("unknown annotation with value: @" ++ k ++ "=" ++ v)) := by
  unfold Gen.setStringOption
  rw [if_neg h]

theorem setBool_err (c : Dyn.EnumConfig) (k : String) (v : Bool) (e : String)
    (h : (Dyn.setBoolOption c k v).2 = some e) : (Dyn.setBoolOption c k v).1 = c := by
  by_cases h1 : k = "noprefix"
  · subst h1; exact Option.noConfusion h
  by_cases h2 : k = "noiota"
  · subst h2; exact Option.noConfusion h
  by_cases h3 : k = "lower"
  · subst h3; exact Option.noConfusion h
  by_cases h4 : k = "nocase"
  · subst h4; cases v
    · exact Option.noConfusion h
    · exact Option.noConfusion h
  by_cases h5 : k = "marshal"
  · subst h5; exact Option.noConfusion h
  by_cases h6 : k = "sql"
  · subst h6; exact Option.noConfusion h
  by_cases h7 : k = "sqlint"
  · subst h7; exact Option.noConfusion h
  by_cases h8 : k = "flag"
  · subst h8; exact Option.noConfusion h
  by_cases h9 : k = "names"
  · subst h9; exact Option.noConfusion h
  by_cases h10 : k = "values"
  · subst h10; exact Option.noConfusion h
  by_cases h11 : k = "nocamel"
  · subst h11; exact Option.noConfusion h
  by_cases h12 : k = "ptr"
  · subst h12; exact Option.noConfusion h
  by_cases h13 : k = "sqlnullint"
  · subst h13; exact Option.noConfusion h
  by_cases h14 : k = "sqlnullstr"
  · subst h14; exact Option.noConfusion h
  by_cases h15 : k = "mustparse"
  · subst h15; exact Option.noConfusion h
  by_cases h16 : k = "forcelower"
  · subst h16; exact Option.noConfusion h
  by_cases h17 : k = "forceupper"
  · subst h17; exact Option.noConfusion h
  by_cases h18 : k = "nocomments"
  · subst h18; exact Option.noConfusion h
  by_cases h19 : k = "noparse"
  · subst h19; exact Option.noConfusion h
  rw [setBool_defaultD c k v h1 h2 h3 h4 h5 h6 h7 h8 h9 h10 h11 h12 h13 h14 h15 h16 h17 h18 h19]

theorem setStr_err (c : Dyn.EnumConfig) (k v e : String)
    (h : (Dyn.setStringOption c k v).2 = some e) :
    (Dyn.setStringOption c k v).1 = c := by
  by_cases hp : k = "prefix"
  · subst hp; exact Option.noConfusion h
  · rw [setStr_defaultD c k v hp]

theorem setBool_idem (c : Dyn.EnumConfig) (k : String) (v : Bool) :
    (Dyn.setBoolOption (Dyn.setBoolOption c k v).1 k v).1 =
      (Dyn.setBoolOption c k v).1 := by
  by_cases h1 : k = "noprefix"
  · subst h1; rfl
  by_cases h2 : k = "noiota"
  · subst h2; rfl
  by_cases h3 : k = "lower"
  · subst h3; rfl
  by_cases h4 : k = "nocase"
  · subst h4; cases v <;> rfl
  by_cases h5 : k = "marshal"
  · subst h5; rfl
  by_cases h6 : k = "sql"
  · subst h6; rfl
  by_cases h7 : k = "sqlint"
  · subst h7; rfl
  by_cases h8 : k = "flag"
  · subst h8; rfl
  by_cases h9 : k = "names"
  · subst h9; rfl
  by_cases h10 : k = "values"
  · subst h10; rfl
  by_cases h11 : k = "nocamel"
  · subst h11; rfl
  by_cases h12 : k = "ptr"
  · subst h12; rfl
  by_cases h13 : k = "sqlnullint"
  · subst h13; rfl
  by_cases h14 : k = "sqlnullstr"
  · subst h14; rfl
  by_cases h15 : k = "mustparse"
  · subst h15; rfl
  by_cases h16 : k = "forcelower"
  · subst h16; rfl
  by_cases h17 : k = "forceupper"
  · subst h17; rfl
  by_cases h18 : k = "nocomments"
  · subst h18; rfl
  by_cases h19 : k = "noparse"
  · subst h19; rfl
  rw [setBool_defaultD c k v h1 h2 h3 h4 h5 h6 h7 h8 h9 h10 h11 h12 h13 h14 h15 h16 h17 h18 h19]
  show (Dyn.setBoolOption c k v).1 = c
  rw [setBool_defaultD c k v h1 h2 h3 h4 h5 h6 h7 h8 h9 h10 h11 h12 h13 h14 h15 h16 h17 h18 h19]

theorem setStr_idem (c : Dyn.EnumConfig) (k v : String) :
    (Dyn.setStringOption (Dyn.setStringOption c k v).1 k v).1 =
      (Dyn.setStringOption c k v).1 := by
  by_cases hp : k = "prefix"
  · subst hp; rfl
  · rw [setStr_defaultD c k v hp]
    show (Dyn.setStringOption c k v).1 = c
    rw [setStr_defaultD c k v hp]

theorem setBool_other_slots (c : Dyn.EnumConfig) (k : String) (v : Bool)
    (hl : k ≠ "lower") (hn : k ≠ "nocase") :
    (Dyn.setBoolOption c k v).1.CaseInsensitive = c.CaseInsensitive ∧
    (Dyn.setBoolOption c k v).1.LowercaseLookup = c.LowercaseLookup := by
  by_cases h1 : k = "noprefix"
  · subst h1; exact ⟨rfl, rfl⟩
  by_cases h2 : k = "noiota"
  · subst h2; exact ⟨rfl, rfl⟩
  by_cases h5 : k = "marshal"
  · subst h5; exact ⟨rfl, rfl⟩
  by_cases h6 : k = "sql"
  · subst h6; exact ⟨rfl, rfl⟩
  by_cases h7 : k = "sqlint"
  · subst h7; exact ⟨rfl, rfl⟩
  by_cases h8 : k = "flag"
  · subst h8; exact ⟨rfl, rfl⟩
  by_cases h9 : k = "names"
  · subst h9; exact ⟨rfl, rfl⟩
  by_cases h10 : k = "values"
  · subst h10; exact ⟨rfl, rfl⟩
  by_cases h11 : k = "nocamel"
  · subst h11; exact ⟨rfl, rfl⟩
  by_cases h12 : k = "ptr"
  · subst h12; exact ⟨rfl, rfl⟩
  by_cases h13 : k = "sqlnullint"
  · subst h13; exact ⟨rfl, rfl⟩
  by_cases h14 : k = "sqlnullstr"
  · subst h14; exact ⟨rfl, rfl⟩
  by_cases h15 : k = "mustparse"
  · subst h15; exact ⟨rfl, rfl⟩
  by_cases h16 : k = "forcelower"
  · subst h16; exact ⟨rfl, rfl⟩
  by_cases h17 : k = "forceupper"
  · subst h17; exact ⟨rfl, rfl⟩
  by_cases h18 : k = "nocomments"
  · subst h18; exact ⟨rfl, rfl⟩
  by_cases h19 : k = "noparse"
  · subst h19; exact ⟨rfl, rfl⟩
  rw [setBool_defaultD c k v h1 h2 hl hn h5 h6 h7 h8 h9 h10 h11 h12 h13 h14 h15 h16 h17 h18 h19]
  exact ⟨rfl, rfl⟩

/-- Claim C3: the directive `@nocase` (and `@nocase:true`) sets both
CaseInsensitive and LowercaseLookup to (true, set); `@nocase:false` sets
CaseInsensitive to (false, set) and leaves the LowercaseLookup slot
untouched — only enabling nocase cascades. -/
theorem nocase_cascades_only_when_enabled (c : Dyn.EnumConfig) :
    Dyn.ParseAnnotation c "@nocase" =
      ({ c with CaseInsensitive := { Value := GoValue.vbool true, Valid := true },
                LowercaseLookup := { Value := GoValue.vbool true, Valid := true } }, none) ∧
    Dyn.ParseAnnotation c "@nocase:true" =
      ({ c with CaseInsensitive := { Value := GoValue.vbool true, Valid := true },
                LowercaseLookup := { Value := GoValue.vbool true, Valid := true } }, none) ∧
    Dyn.ParseAnnotation c "@nocase:false" =
      ({ c with CaseInsensitive := { Value := GoValue.vbool false, Valid := true } }, none) ∧
    (Dyn.ParseAnnotation c "@nocase:false").1.LowercaseLookup = c.LowercaseLookup :=
  ⟨rfl, rfl, rfl, rfl⟩

/-- Claim C4: whenever ParseAnnotation returns an error (missing marker,
unknown boolean key or unknown string key), the configuration it was
applied to comes back exactly as it was — a failing directive modifies no
slot. -/
theorem failing_directive_frame (c : Dyn.EnumConfig) (raw : String)
    (c' : Dyn.EnumConfig) (e : String)
    (h : Dyn.ParseAnnotation c raw = (c', some e)) : c' = c := by
  have h1 : (Dyn.ParseAnnotation c raw).1 = c' := congrArg Prod.fst h
  have h2 : (Dyn.ParseAnnotation c raw).2 = some e := congrArg Prod.snd h
  rw [← h1]
  unfold Dyn.ParseAnnotation at h2 ⊢
  cases hd : classify raw <;> rw [hd] at h2
  case nop => exact Option.noConfusion h2
  case badMarker s => rfl
  case boolOpt k v => exact setBool_err c k v e h2
  case strOpt k v => exact setStr_err c k v e h2

theorem failing_directive_frame_witness :
    (Dyn.ParseAnnotation Dyn.NewEnumConfig "@bogus").1 = Dyn.NewEnumConfig :=
  failing_directive_frame Dyn.NewEnumConfig "@bogus"
    (Dyn.ParseAnnotation Dyn.NewEnumConfig "@bogus").1 "unknown annotation: @bogus"
    (by decide)

/-- Claim C5: the last directive for a given key wins: for every recognized
boolean key, applying two boolean directives for it in sequence leaves that
key's slot equal to the slot after applying only the second one, namely
(value of the second, set); concretely `@marshal:true` then
`@marshal:false` yields the Marshal slot (false, set) on any
configuration. -/
theorem last_directive_wins (c : Dyn.EnumConfig) (k : String) (b1 b2 : Bool)
    (hk : k ∈ boolKeys) :
    Dyn.slotOf k (Dyn.setBoolOption (Dyn.setBoolOption c k b1).1 k b2).1 =
      Dyn.slotOf k (Dyn.setBoolOption c k b2).1 ∧
    Dyn.slotOf k (Dyn.setBoolOption (Dyn.setBoolOption c k b1).1 k b2).1 =
      { Value := GoValue.vbool b2, Valid := true } ∧
    Dyn.ParseAnnotation (Dyn.ParseAnnotation c "@marshal:true").1 "@marshal:false" =
      ({ c with Marshal := { Value := GoValue.vbool false, Valid := true } }, none) := by
  refine ⟨?_, ?_, rfl⟩ <;>
  · fin_cases hk <;> cases b1 <;> cases b2 <;> rfl

theorem last_directive_wins_witness :
    Dyn.slotOf "marshal"
      (Dyn.setBoolOption (Dyn.setBoolOption Dyn.NewEnumConfig "marshal" true).1
        "marshal" false).1 =
      { Value := GoValue.vbool false, Valid := true } :=
  (last_directive_wins Dyn.NewEnumConfig "marshal" true false (by decide)).2.1

/-- Claim C6: ParseAnnotation is idempotent per directive: applying the
same directive twice in succession yields the same configuration as
applying it once. -/
theorem directive_idempotent (c : Dyn.EnumConfig) (raw : String) :
    (Dyn.ParseAnnotation (Dyn.ParseAnnotation c raw).1 raw).1 =
      (Dyn.ParseAnnotation c raw).1 := by
  unfold Dyn.ParseAnnotation
  cases classify raw with
  | nop => rfl
  | badMarker s => rfl
  | boolOpt k v => exact setBool_idem c k v
  | strOpt k v => exact setStr_idem c k v

/-- Claim C1 counterexample: `@nocase` is a valid bare-key directive, yet
applying it to a fresh configuration sets two slots, not exactly one: the
LowercaseLookup slot is set as well. -/
theorem single_slot_counterexample :
    (Dyn.ParseAnnotation Dyn.NewEnumConfig "@nocase").2 = none ∧
    Dyn.setCount (Dyn.ParseAnnotation Dyn.NewEnumConfig "@nocase").1 = 2 ∧
    (Dyn.ParseAnnotation Dyn.NewEnumConfig "@nocase").1.LowercaseLookup.Valid = true := by
  decide

/-- Claim C1 as amended: a successful non-empty directive on a fresh
configuration sets exactly one slot — except a nocase-true directive,
which sets exactly two, CaseInsensitive and LowercaseLookup, both to
(true, set); and in each grammar form every recognized key's directive
sets that key's slot to the parsed value with the set flag true, one slot
in total (nocase excluded). -/
theorem fresh_parse_slot_accounting :
    (∀ s : String,
      (Dyn.ParseAnnotation Dyn.NewEnumConfig s).2 = none →
      goTrimSpace s.data ≠ [] →
      Dyn.setCount (Dyn.ParseAnnotation Dyn.NewEnumConfig s).1 = 1 ∨
        (Dyn.setCount (Dyn.ParseAnnotation Dyn.NewEnumConfig s).1 = 2 ∧
         (Dyn.ParseAnnotation Dyn.NewEnumConfig s).1.CaseInsensitive =
           { Value := GoValue.vbool true, Valid := true } ∧
         (Dyn.ParseAnnotation Dyn.NewEnumConfig s).1.LowercaseLookup =
           { Value := GoValue.vbool true, Valid := true })) ∧
    (∀ k ∈ boolKeys, k ≠ "nocase" → ∀ b ∈ [true, false],
      (Dyn.ParseAnnotation Dyn.NewEnumConfig
          ("@" ++ k ++ ":" ++ (if b then "true" else "false"))).2 = none ∧
      Dyn.slotOf k (Dyn.ParseAnnotation Dyn.NewEnumConfig
          ("@" ++ k ++ ":" ++ (if b then "true" else "false"))).1 =
        { Value := GoValue.vbool b, Valid := true } ∧
      Dyn.setCount (Dyn.ParseAnnotation Dyn.NewEnumConfig
          ("@" ++ k ++ ":" ++ (if b then "true" else "false"))).1 = 1) ∧
    (∀ k ∈ boolKeys, k ≠ "nocase" →
      (Dyn.ParseAnnotation Dyn.NewEnumConfig ("@" ++ k)).2 = none ∧
      Dyn.slotOf k (Dyn.ParseAnnotation Dyn.NewEnumConfig ("@" ++ k)).1 =
        { Value := GoValue.vbool true, Valid := true } ∧
      Dyn.setCount (Dyn.ParseAnnotation Dyn.NewEnumConfig ("@" ++ k)).1 = 1) ∧
    ((Dyn.ParseAnnotation Dyn.NewEnumConfig "@prefix:My").2 = none ∧
      (Dyn.ParseAnnotation Dyn.NewEnumConfig "@prefix:My").1.Prefix =
        { Value := GoValue.vstr "My", Valid := true } ∧
      Dyn.setCount (Dyn.ParseAnnotation Dyn.NewEnumConfig "@prefix:My").1 = 1) ∧
    ((Dyn.ParseAnnotation Dyn.NewEnumConfig "@prefix=My").2 = none ∧
      (Dyn.ParseAnnotation Dyn.NewEnumConfig "@prefix=My").1.Prefix =
        { Value := GoValue.vstr "My", Valid := true } ∧
      Dyn.setCount (Dyn.ParseAnnotation Dyn.NewEnumConfig "@prefix=My").1 = 1) := by
  refine ⟨?_, by decide, by decide, by decide, by decide⟩
  intro s h hne
  unfold Dyn.ParseAnnotation at h ⊢
  cases hd : classify s <;> rw [hd] at h <;>
    simp only [Dyn.applyDirective] at h ⊢
  case nop => exact absurd (classify_nop s hd) hne
  case badMarker o => exact Option.noConfusion h
  case strOpt k v =>
    by_cases hp : k = "prefix"
    · subst hp; exact Or.inl rfl
    · rw [setStr_defaultD Dyn.NewEnumConfig k v hp] at h
      exact Option.noConfusion h
  case boolOpt k v =>
    by_cases h1 : k = "noprefix"
    · subst h1; exact Or.inl rfl
    by_cases h2 : k = "noiota"
    · subst h2; exact Or.inl rfl
    by_cases h3 : k = "lower"
    · subst h3; exact Or.inl rfl
    by_cases h4 : k = "nocase"
    · subst h4
      cases v
      · exact Or.inl rfl
      · exact Or.inr ⟨rfl, rfl, rfl⟩
    by_cases h5 : k = "marshal"
    · subst h5; exact Or.inl rfl
    by_cases h6 : k = "sql"
    · subst h6; exact Or.inl rfl
    by_cases h7 : k = "sqlint"
    · subst h7; exact Or.inl rfl
    by_cases h8 : k = "flag"
    · subst h8; exact Or.inl rfl
    by_cases h9 : k = "names"
    · subst h9; exact Or.inl rfl
    by_cases h10 : k = "values"
    · subst h10; exact Or.inl rfl
    by_cases h11 : k = "nocamel"
    · subst h11; exact Or.inl rfl
    by_cases h12 : k = "ptr"
    · subst h12; exact Or.inl rfl
    by_cases h13 : k = "sqlnullint"
    · subst h13; exact Or.inl rfl
    by_cases h14 : k = "sqlnullstr"
    · subst h14; exact Or.inl rfl
    by_cases h15 : k = "mustparse"
    · subst h15; exact Or.inl rfl
    by_cases h16 : k = "forcelower"
    · subst h16; exact Or.inl rfl
    by_cases h17 : k = "forceupper"
    · subst h17; exact Or.inl rfl
    by_cases h18 : k = "nocomments"
    · subst h18; exact Or.inl rfl
    by_cases h19 : k = "noparse"
    · subst h19; exact Or.inl rfl
    rw [setBool_defaultD Dyn.NewEnumConfig k v
      h1 h2 h3 h4 h5 h6 h7 h8 h9 h10 h11 h12 h13 h14 h15 h16 h17 h18 h19] at h
    exact Option.noConfusion h

theorem fresh_parse_slot_accounting_witness :
    Dyn.setCount (Dyn.ParseAnnotation Dyn.NewEnumConfig "@marshal").1 = 1 ∨
      (Dyn.setCount (Dyn.ParseAnnotation Dyn.NewEnumConfig "@marshal").1 = 2 ∧
       (Dyn.ParseAnnotation Dyn.NewEnumConfig "@marshal").1.CaseInsensitive =
         { Value := GoValue.vbool true, Valid := true } ∧
       (Dyn.ParseAnnotation Dyn.NewEnumConfig "@marshal").1.LowercaseLookup =
         { Value := GoValue.vbool true, Valid := true }) :=
  fresh_parse_slot_accounting.1 "@marshal" (by decide) (by decide)

/-- Claim C2 counterexample: after the successful sequence `@nocase` then
`@lower:false` from a fresh configuration, CaseInsensitive is set true
while LowercaseLookup is set false, so the claimed standing invariant does
not survive every directive application. -/
theorem nocase_then_lower_false_counterexample :
    (Dyn.runFrom Dyn.NewEnumConfig ["@nocase", "@lower:false"]).2 = [none, none] ∧
    (Dyn.runFrom Dyn.NewEnumConfig ["@nocase", "@lower:false"]).1.CaseInsensitive =
      { Value := GoValue.vbool true, Valid := true } ∧
    (Dyn.runFrom Dyn.NewEnumConfig ["@nocase", "@lower:false"]).1.LowercaseLookup =
      { Value := GoValue.vbool false, Valid := true } := by
  decide

theorem applyDir_preserves_inv (c : Dyn.EnumConfig) (d : Directive)
    (hInv : CIimpliesLL c) (hne : d ≠ Directive.boolOpt "lower" false) :
    CIimpliesLL (Dyn.applyDirective c d).1 := by
  cases d with
  | nop => exact hInv
  | badMarker s => exact hInv
  | strOpt k v =>
    show CIimpliesLL (Dyn.setStringOption c k v).1
    by_cases hp : k = "prefix"
    · subst hp; exact fun hCI => hInv hCI
    · rw [setStr_defaultD c k v hp]; exact hInv
  | boolOpt k v =>
    show CIimpliesLL (Dyn.setBoolOption c k v).1
    by_cases h3 : k = "lower"
    · subst h3
      cases v
      · exact absurd rfl hne
      · exact fun _ => rfl
    by_cases h4 : k = "nocase"
    · subst h4
      cases v
      · intro hCI
        exact GoValue.noConfusion (congrArg Dyn.EnumConfigValue.Value hCI)
          fun hb => Bool.noConfusion hb
      · exact fun _ => rfl
    · intro hCI
      rw [(setBool_other_slots c k v h3 h4).2]
      exact hInv (((setBool_other_slots c k v h3 h4).1).symm.trans hCI)

theorem runFrom_preserves_inv (anns : List String) :
    ∀ c : Dyn.EnumConfig, CIimpliesLL c →
      (∀ a ∈ anns, classify a ≠ Directive.boolOpt "lower" false) →
      CIimpliesLL (Dyn.runFrom c anns).1 := by
  induction anns with
  | nil => exact fun c h _ => h
  | cons a rest ih =>
    intro c h hall
    exact ih (Dyn.ParseAnnotation c a).1
      (applyDir_preserves_inv c (classify a) h (hall a (List.mem_cons_self a rest)))
      (fun x hx => hall x (List.mem_cons_of_mem a hx))

/-- Claim C2 as amended: the implication "CaseInsensitive set true implies
LowercaseLookup set true" holds after every sequence of ParseAnnotation
calls from a fresh configuration that contains no directive classifying as
the boolean option lower=false; only a later `@lower:false` can break it,
because only enabling nocase cascades and nothing else ever stores false
into LowercaseLookup. -/
theorem nocase_implies_lower_invariant (anns : List String)
    (hall : ∀ a ∈ anns, classify a ≠ Directive.boolOpt "lower" false) :
    CIimpliesLL (Dyn.runFrom Dyn.NewEnumConfig anns).1 :=
  runFrom_preserves_inv anns Dyn.NewEnumConfig
    (fun h => absurd h (by decide)) hall

theorem nocase_implies_lower_invariant_witness :
    CIimpliesLL (Dyn.runFrom Dyn.NewEnumConfig ["@nocase", "@marshal:false"]).1 :=
  nocase_implies_lower_invariant ["@nocase", "@marshal:false"] (by decide)

/-- Claim C7: exactly one grammar form is attempted per directive, in
priority order: every directive whose body contains `:` is processed as
the Key:Value form, split on the first `:`, even when it also contains
`=` (boolean when the trimmed value is literally `true` or `false`,
quote-stripped string otherwise; the `=` stays inside the value, as
`@prefix:a=b` shows concretely); a directive with `=` and no `:` goes
through the string-option path only — it can change at most the Prefix
slot — so a boolean-only key in the `=` form fails with the
unknown-directive error rather than setting the boolean slot. -/
theorem colon_form_priority :
    (∀ s : String,
      (goTrimSpace s.data).head? = some '@' →
      ((goTrimSpace s.data).tail.contains ':') = true →
      classify s =
        if goTrimSpace (splitOnFirst ':' (goTrimSpace s.data).tail).2 = "true".data ∨
            goTrimSpace (splitOnFirst ':' (goTrimSpace s.data).tail).2 = "false".data then
          Directive.boolOpt
            (String.mk (goTrimSpace (splitOnFirst ':' (goTrimSpace s.data).tail).1))
            (decide (goTrimSpace (splitOnFirst ':' (goTrimSpace s.data).tail).2 = "true".data))
        else
          Directive.strOpt
            (String.mk (goTrimSpace (splitOnFirst ':' (goTrimSpace s.data).tail).1))
            (String.mk (stripQuotes (goTrimSpace (splitOnFirst ':' (goTrimSpace s.data).tail).2)))) ∧
    (∀ c : Dyn.EnumConfig, Dyn.ParseAnnotation c "@prefix:a=b" =
      ({ c with Prefix := { Value := GoValue.vstr "a=b", Valid := true } }, none)) ∧
    (∀ (s : String) (c : Dyn.EnumConfig),
      (goTrimSpace s.data).head? = some '@' →
      ((goTrimSpace s.data).tail.contains ':') = false →
      ((goTrimSpace s.data).tail.contains '=') = true →
      (∃ k v, classify s = Directive.strOpt k v) ∧
        { (Dyn.ParseAnnotation c s).1 with Prefix := c.Prefix } = c) ∧
    (∀ c : Dyn.EnumConfig, Dyn.ParseAnnotation c "@marshal=true" =
      (c, some "unknown annotation with value: @marshal=true")) := by
  refine ⟨?_, fun c => rfl, ?_, fun c => rfl⟩
  · intro s hhead hcolon
    have hne : ¬(goTrimSpace s.data = []) := by
      intro h0
      rw [h0] at hhead
      exact Option.noConfusion hhead
    have hmk : ¬((goTrimSpace s.data).head? ≠ some '@') := fun hx => hx hhead
    unfold classify
    rw [if_neg hne, if_neg hmk, if_pos hcolon]
  intro s c hhead hcolon heq
  have hne : ¬(goTrimSpace s.data = []) := by
    intro h0
    rw [h0] at hhead
    exact Option.noConfusion hhead
  have hmk : ¬((goTrimSpace s.data).head? ≠ some '@') := fun hx => hx hhead
  have hcolon' : ¬(((goTrimSpace s.data).tail.contains ':') = true) := by
    rw [hcolon]; exact Bool.false_ne_true
  have hcls : classify s =
      Directive.strOpt
        (String.mk (goTrimSpace (splitOnFirst '=' (goTrimSpace s.data).tail).1))
        (String.mk (stripQuotes (goTrimSpace (splitOnFirst '=' (goTrimSpace s.data).tail).2))) := by
    unfold classify
    rw [if_neg hne, if_neg hmk, if_neg hcolon', if_pos heq]
  refine ⟨⟨_, _, hcls⟩, ?_⟩
  unfold Dyn.ParseAnnotation
  rw [hcls]
  show { (Dyn.setStringOption c
      (String.mk (goTrimSpace (splitOnFirst '=' (goTrimSpace s.data).tail).1))
      (String.mk (stripQuotes (goTrimSpace (splitOnFirst '=' (goTrimSpace s.data).tail).2)))).1
        with Prefix := c.Prefix } = c
  by_cases hp :
      String.mk (goTrimSpace (splitOnFirst '=' (goTrimSpace s.data).tail).1) = "prefix"
  · rw [hp]; rfl
  · rw [setStr_defaultD c
      (String.mk (goTrimSpace (splitOnFirst '=' (goTrimSpace s.data).tail).1))
      (String.mk (stripQuotes (goTrimSpace (splitOnFirst '=' (goTrimSpace s.data).tail).2))) hp]

theorem colon_form_priority_witness :
    (classify "@prefix:a=b" =
      if goTrimSpace (splitOnFirst ':' (goTrimSpace ("@prefix:a=b").data).tail).2 = "true".data ∨
          goTrimSpace (splitOnFirst ':' (goTrimSpace ("@prefix:a=b").data).tail).2 = "false".data then
        Directive.boolOpt
          (String.mk (goTrimSpace (splitOnFirst ':' (goTrimSpace ("@prefix:a=b").data).tail).1))
          (decide (goTrimSpace (splitOnFirst ':' (goTrimSpace ("@prefix:a=b").data).tail).2 = "true".data))
      else
        Directive.strOpt
          (String.mk (goTrimSpace (splitOnFirst ':' (goTrimSpace ("@prefix:a=b").data).tail).1))
          (String.mk (stripQuotes (goTrimSpace (splitOnFirst ':' (goTrimSpace ("@prefix:a=b").data).tail).2)))) ∧
    ((∃ k v, classify "@prefix=x" = Directive.strOpt k v) ∧
      { (Dyn.ParseAnnotation Dyn.NewEnumConfig "@prefix=x").1 with
          Prefix := Dyn.NewEnumConfig.Prefix } = Dyn.NewEnumConfig) :=
  ⟨colon_form_priority.1 "@prefix:a=b" (by decide) (by decide),
    colon_form_priority.2.2.1 "@prefix=x" Dyn.NewEnumConfig (by decide) (by decide) (by decide)⟩

theorem dropWhile_sp_app (l : List Char) :
    List.dropWhile goIsSpace (l ++ [' ']) =
      if List.dropWhile goIsSpace l = [] then []
      else List.dropWhile goIsSpace l ++ [' '] := by
  induction l with
  | nil => rfl
  | cons c cs ih =>
    cases hc : goIsSpace c
    · simp [List.dropWhile_cons, hc]
    · simp [List.dropWhile_cons, hc, ih]

theorem goTrimSpace_append_sp (l : List Char) :
    goTrimSpace (l ++ [' ']) = goTrimSpace l := by
  unfold goTrimSpace
  rw [dropWhile_sp_app l]
  by_cases h0 : List.dropWhile goIsSpace l = []
  · rw [if_pos h0, h0]
  · rw [if_neg h0, List.reverse_append]
    rfl

/-- Claim C8 counterexample: a bare-key directive with whitespace between
the marker and the key does not behave like the directive without it:
`@ marshal` fails with an unknown-directive error while `@marshal`
succeeds. -/
theorem bare_key_whitespace_counterexample :
    Dyn.ParseAnnotation Dyn.NewEnumConfig "@ marshal" =
      (Dyn.NewEnumConfig, some "unknown annotation: @ marshal") ∧
    Dyn.ParseAnnotation Dyn.NewEnumConfig "@marshal" ≠
      Dyn.ParseAnnotation Dyn.NewEnumConfig "@ marshal" := by
  decide

/-- Claim C8 as amended: whitespace is trimmed from the whole directive in
every form, and the derived key and value are trimmed in the Key:Value and
Key=Value forms; in the bare-key form the remainder after the marker is
not trimmed again, so `@ marshal` fails with an unknown-directive error
instead of behaving like `@marshal`. -/
theorem whitespace_trimming :
    (∀ (c : Dyn.EnumConfig) (s : String),
      Dyn.ParseAnnotation c (" " ++ s) = Dyn.ParseAnnotation c s ∧
      Dyn.ParseAnnotation c (s ++ " ") = Dyn.ParseAnnotation c s) ∧
    (∀ c : Dyn.EnumConfig,
      Dyn.ParseAnnotation c "@ marshal : true" = Dyn.ParseAnnotation c "@marshal:true" ∧
      Dyn.ParseAnnotation c "@ prefix = 'My'" = Dyn.ParseAnnotation c "@prefix=My") ∧
    (∀ c : Dyn.EnumConfig,
      Dyn.ParseAnnotation c "@ marshal" = (c, some "unknown annotation: @ marshal")) := by
  refine ⟨?_, fun c => ⟨rfl, rfl⟩, fun c => rfl⟩
  intro c s
  have hcls1 : classify (" " ++ s) = classify s := by
    unfold classify
    rw [show (" " ++ s).data = ' ' :: s.data from rfl,
      show goTrimSpace (' ' :: s.data) = goTrimSpace s.data from rfl]
  have hcls2 : classify (s ++ " ") = classify s := by
    unfold classify
    rw [show (s ++ " ").data = s.data ++ [' '] from rfl, goTrimSpace_append_sp]
  exact ⟨congrArg (Dyn.applyDirective c) hcls1, congrArg (Dyn.applyDirective c) hcls2⟩

/-- Claim C9 counterexample: in the dynamic version a slot can be valid
while its box holds a string; GetBool then returns the caller's default
rather than any stored value — two different defaults give two different
results on the same Valid=true slot. -/
theorem getbool_mismatch_counterexample :
    Dyn.EnumConfigValue.GetBool { Value := GoValue.vstr "a", Valid := true } true = true ∧
    Dyn.EnumConfigValue.GetBool { Value := GoValue.vstr "a", Valid := true } false = false ∧
    Dyn.EnumConfigValue.GetBool { Value := GoValue.vstr "a", Valid := true } true ≠
      Dyn.EnumConfigValue.GetBool { Value := GoValue.vstr "a", Valid := true } false := by
  decide

/-- Claim C9 as amended: reading an unset slot returns exactly the
caller's default, never a zero value, in both versions; a set slot
returns the stored value when the store holds the requested type (always,
in the generic version), while in the dynamic version a set slot whose
box holds a value of the other type falls back to the caller's default. -/
theorem get_value_defaults :
    (∀ (g : GoValue) (d : Bool),
      Dyn.EnumConfigValue.GetBool { Value := g, Valid := false } d = d) ∧
    (∀ (g : GoValue) (d : String),
      Dyn.EnumConfigValue.GetString { Value := g, Valid := false } d = d) ∧
    (∀ (b d : Bool),
      Dyn.EnumConfigValue.GetBool { Value := GoValue.vbool b, Valid := true } d = b) ∧
    (∀ (s d : String),
      Dyn.EnumConfigValue.GetString { Value := GoValue.vstr s, Valid := true } d = s) ∧
    (∀ (g : GoValue) (d : Bool), (∀ b, g ≠ GoValue.vbool b) →
      Dyn.EnumConfigValue.GetBool { Value := g, Valid := true } d = d) ∧
    (∀ (g : GoValue) (d : String), (∀ s, g ≠ GoValue.vstr s) →
      Dyn.EnumConfigValue.GetString { Value := g, Valid := true } d = d) ∧
    (∀ (v : Gen.EnumConfigValue Bool) (d : Bool), v.Valid = false →
      Gen.EnumConfigValue.GetBool v d = d) ∧
    (∀ (v : Gen.EnumConfigValue Bool) (d : Bool), v.Valid = true →
      Gen.EnumConfigValue.GetBool v d = v.Value) ∧
    (∀ (v : Gen.EnumConfigValue String) (d : String), v.Valid = false →
      Gen.EnumConfigValue.GetString v d = d) ∧
    (∀ (v : Gen.EnumConfigValue String) (d : String), v.Valid = true →
      Gen.EnumConfigValue.GetString v d = v.Value) := by
  refine ⟨fun g d => rfl, fun g d => rfl, fun b d => rfl, fun s d => rfl,
    ?_, ?_, ?_, ?_, ?_, ?_⟩
  · intro g d hg
    cases g with
    | vnil => rfl
    | vbool b => exact absurd rfl (hg b)
    | vstr s => rfl
  · intro g d hg
    cases g with
    | vnil => rfl
    | vbool b2 => rfl
    | vstr s => exact absurd rfl (hg s)
  · intro v d hv
    unfold Gen.EnumConfigValue.GetBool
    rw [hv]
    exact if_neg Bool.false_ne_true
  · intro v d hv
    unfold Gen.EnumConfigValue.GetBool
    rw [hv]
    exact if_pos rfl
  · intro v d hv
    unfold Gen.EnumConfigValue.GetString
    rw [hv]
    exact if_neg Bool.false_ne_true
  · intro v d hv
    unfold Gen.EnumConfigValue.GetString
    rw [hv]
    exact if_pos rfl

theorem get_value_defaults_witness :
    Dyn.EnumConfigValue.GetBool { Value := GoValue.vstr "a", Valid := true } true = true ∧
    Gen.EnumConfigValue.GetBool { Value := true, Valid := true } false = true :=
  ⟨get_value_defaults.2.2.2.2.1 (GoValue.vstr "a") true
      (fun _ h => GoValue.noConfusion h),
    get_value_defaults.2.2.2.2.2.2.2.1 { Value := true, Valid := true } false rfl⟩

theorem relB_get (x : Dyn.EnumConfigValue) (y : Gen.EnumConfigValue Bool)
    (hb : relB x y) (d : Bool) :
    Dyn.EnumConfigValue.GetBool x d = Gen.EnumConfigValue.GetBool y d := by
  obtain ⟨hv, hval⟩ := hb
  unfold Dyn.EnumConfigValue.GetBool Gen.EnumConfigValue.GetBool
  cases hy : y.Valid with
  | false =>
    rw [hv, hy]
    rfl
  | true =>
    rw [hv, hy, hval (hv.trans hy)]

theorem relS_get (x : Dyn.EnumConfigValue) (y : Gen.EnumConfigValue String)
    (hb : relS x y) (d : String) :
    Dyn.EnumConfigValue.GetString x d = Gen.EnumConfigValue.GetString y d := by
  obtain ⟨hv, hval⟩ := hb
  unfold Dyn.EnumConfigValue.GetString Gen.EnumConfigValue.GetString
  cases hy : y.Valid with
  | false =>
    rw [hv, hy]
    rfl
  | true =>
    rw [hv, hy, hval (hv.trans hy)]

theorem rel_readsAgree (c : Dyn.EnumConfig) (g : Gen.EnumConfig) (h : rel c g) :
    readsAgree c g := by
  obtain ⟨d1, d2, d3, d4, d5, d6, d7, d8, d9, d10, d11, d12, d13, d14, d15, d16, d17, d18, d19, d20⟩ := h
  refine ⟨fun d => ?_, fun d => relS_get c.Prefix g.Prefix d20 d⟩
  exact ⟨relB_get _ _ d1 d, relB_get _ _ d2 d, relB_get _ _ d3 d, relB_get _ _ d4 d, relB_get _ _ d5 d, relB_get _ _ d6 d, relB_get _ _ d7 d, relB_get _ _ d8 d, relB_get _ _ d9 d, relB_get _ _ d10 d, relB_get _ _ d11 d, relB_get _ _ d12 d, relB_get _ _ d13 d, relB_get _ _ d14 d, relB_get _ _ d15 d, relB_get _ _ d16 d, relB_get _ _ d17 d, relB_get _ _ d18 d, relB_get _ _ d19 d⟩

theorem rel_fresh : rel Dyn.NewEnumConfig Gen.NewEnumConfig :=
  ⟨⟨rfl, fun h => Bool.noConfusion h⟩, ⟨rfl, fun h => Bool.noConfusion h⟩, ⟨rfl, fun h => Bool.noConfusion h⟩, ⟨rfl, fun h => Bool.noConfusion h⟩, ⟨rfl, fun h => Bool.noConfusion h⟩, ⟨rfl, fun h => Bool.noConfusion h⟩, ⟨rfl, fun h => Bool.noConfusion h⟩, ⟨rfl, fun h => Bool.noConfusion h⟩, ⟨rfl, fun h => Bool.noConfusion h⟩, ⟨rfl, fun h => Bool.noConfusion h⟩, ⟨rfl, fun h => Bool.noConfusion h⟩, ⟨rfl, fun h => Bool.noConfusion h⟩, ⟨rfl, fun h => Bool.noConfusion h⟩, ⟨rfl, fun h => Bool.noConfusion h⟩, ⟨rfl, fun h => Bool.noConfusion h⟩, ⟨rfl, fun h => Bool.noConfusion h⟩, ⟨rfl, fun h => Bool.noConfusion h⟩, ⟨rfl, fun h => Bool.noConfusion h⟩, ⟨rfl, fun h => Bool.noConfusion h⟩, ⟨rfl, fun h => Bool.noConfusion h⟩⟩

theorem applyDir_rel (c : Dyn.EnumConfig) (g : Gen.EnumConfig) (d : Directive)
    (h : rel c g) :
    (Dyn.applyDirective c d).2 = (Gen.applyDirective g d).2 ∧
    rel (Dyn.applyDirective c d).1 (Gen.applyDirective g d).1 := by
  obtain ⟨d1, d2, d3, d4, d5, d6, d7, d8, d9, d10, d11, d12, d13, d14, d15, d16, d17, d18, d19, d20⟩ := h
  cases d with
  | nop =>
    exact ⟨rfl, d1, d2, d3, d4, d5, d6, d7, d8, d9, d10, d11, d12, d13, d14, d15, d16, d17, d18, d19, d20⟩
  | badMarker s =>
    exact ⟨rfl, d1, d2, d3, d4, d5, d6, d7, d8, d9, d10, d11, d12, d13, d14, d15, d16, d17, d18, d19, d20⟩
  | strOpt k v =>
    show (Dyn.setStringOption c k v).2 = (Gen.setStringOption g k v).2 ∧
      rel (Dyn.setStringOption c k v).1 (Gen.setStringOption g k v).1
    by_cases hp : k = "prefix"
    · subst hp
      exact ⟨rfl, d1, d2, d3, d4, d5, d6, d7, d8, d9, d10, d11, d12, d13, d14, d15, d16, d17, d18, d19, ⟨rfl, fun _ => rfl⟩⟩
    · rw [setStr_defaultD c k v hp, setStr_defaultG g k v hp]
      exact ⟨rfl, d1, d2, d3, d4, d5, d6, d7, d8, d9, d10, d11, d12, d13, d14, d15, d16, d17, d18, d19, d20⟩
  | boolOpt k v =>
    show (Dyn.setBoolOption c k v).2 = (Gen.setBoolOption g k v).2 ∧
      rel (Dyn.setBoolOption c k v).1 (Gen.setBoolOption g k v).1
    by_cases h1 : k = "noprefix"
    · subst h1
      exact ⟨rfl, ⟨rfl, fun _ => rfl⟩, d2, d3, d4, d5, d6, d7, d8, d9, d10, d11, d12, d13, d14, d15, d16, d17, d18, d19, d20⟩
    by_cases h2 : k = "noiota"
    · subst h2
      exact ⟨rfl, d1, ⟨rfl, fun _ => rfl⟩, d3, d4, d5, d6, d7, d8, d9, d10, d11, d12, d13, d14, d15, d16, d17, d18, d19, d20⟩
    by_cases h3 : k = "lower"
    · subst h3
      exact ⟨rfl, d1, d2, ⟨rfl, fun _ => rfl⟩, d4, d5, d6, d7, d8, d9, d10, d11, d12, d13, d14, d15, d16, d17, d18, d19, d20⟩
    by_cases h4 : k = "nocase"
    · subst h4
      cases v
      · exact ⟨rfl, d1, d2, d3, ⟨rfl, fun _ => rfl⟩, d5, d6, d7, d8, d9, d10, d11, d12, d13, d14, d15, d16, d17, d18, d19, d20⟩
      · exact ⟨rfl, d1, d2, ⟨rfl, fun _ => rfl⟩, ⟨rfl, fun _ => rfl⟩, d5, d6, d7, d8, d9, d10, d11, d12, d13, d14, d15, d16, d17, d18, d19, d20⟩
    by_cases h5 : k = "marshal"
    · subst h5
      exact ⟨rfl, d1, d2, d3, d4, ⟨rfl, fun _ => rfl⟩, d6, d7, d8, d9, d10, d11, d12, d13, d14, d15, d16, d17, d18, d19, d20⟩
    by_cases h6 : k = "sql"
    · subst h6
      exact ⟨rfl, d1, d2, d3, d4, d5, ⟨rfl, fun _ => rfl⟩, d7, d8, d9, d10, d11, d12, d13, d14, d15, d16, d17, d18, d19, d20⟩
    by_cases h7 : k = "sqlint"
    · subst h7
      exact ⟨rfl, d1, d2, d3, d4, d5, d6, ⟨rfl, fun _ => rfl⟩, d8, d9, d10, d11, d12, d13, d14, d15, d16, d17, d18, d19, d20⟩
    by_cases h8 : k = "flag"
    · subst h8
      exact ⟨rfl, d1, d2, d3, d4, d5, d6, d7, ⟨rfl, fun _ => rfl⟩, d9, d10, d11, d12, d13, d14, d15, d16, d17, d18, d19, d20⟩
    by_cases h9 : k = "names"
    · subst h9
      exact ⟨rfl, d1, d2, d3, d4, d5, d6, d7, d8, ⟨rfl, fun _ => rfl⟩, d10, d11, d12, d13, d14, d15, d16, d17, d18, d19, d20⟩
    by_cases h10 : k = "values"
    · subst h10
      exact ⟨rfl, d1, d2, d3, d4, d5, d6, d7, d8, d9, ⟨rfl, fun _ => rfl⟩, d11, d12, d13, d14, d15, d16, d17, d18, d19, d20⟩
    by_cases h11 : k = "nocamel"
    · subst h11
      exact ⟨rfl, d1, d2, d3, d4, d5, d6, d7, d8, d9, d10, ⟨rfl, fun _ => rfl⟩, d12, d13, d14, d15, d16, d17, d18, d19, d20⟩
    by_cases h12 : k = "ptr"
    · subst h12
      exact ⟨rfl, d1, d2, d3, d4, d5, d6, d7, d8, d9, d10, d11, ⟨rfl, fun _ => rfl⟩, d13, d14, d15, d16, d17, d18, d19, d20⟩
    by_cases h13 : k = "sqlnullint"
    · subst h13
      exact ⟨rfl, d1, d2, d3, d4, d5, d6, d7, d8, d9, d10, d11, d12, ⟨rfl, fun _ => rfl⟩, d14, d15, d16, d17, d18, d19, d20⟩
    by_cases h14 : k = "sqlnullstr"
    · subst h14
      exact ⟨rfl, d1, d2, d3, d4, d5, d6, d7, d8, d9, d10, d11, d12, d13, ⟨rfl, fun _ => rfl⟩, d15, d16, d17, d18, d19, d20⟩
    by_cases h15 : k = "mustparse"
    · subst h15
      exact ⟨rfl, d1, d2, d3, d4, d5, d6, d7, d8, d9, d10, d11, d12, d13, d14, ⟨rfl, fun _ => rfl⟩, d16, d17, d18, d19, d20⟩
    by_cases h16 : k = "forcelower"
    · subst h16
      exact ⟨rfl, d1, d2, d3, d4, d5, d6, d7, d8, d9, d10, d11, d12, d13, d14, d15, ⟨rfl, fun _ => rfl⟩, d17, d18, d19, d20⟩
    by_cases h17 : k = "forceupper"
    · subst h17
      exact ⟨rfl, d1, d2, d3, d4, d5, d6, d7, d8, d9, d10, d11, d12, d13, d14, d15, d16, ⟨rfl, fun _ => rfl⟩, d18, d19, d20⟩
    by_cases h18 : k = "nocomments"
    · subst h18
      exact ⟨rfl, d1, d2, d3, d4, d5, d6, d7, d8, d9, d10, d11, d12, d13, d14, d15, d16, d17, ⟨rfl, fun _ => rfl⟩, d19, d20⟩
    by_cases h19 : k = "noparse"
    · subst h19
      exact ⟨rfl, d1, d2, d3, d4, d5, d6, d7, d8, d9, d10, d11, d12, d13, d14, d15, d16, d17, d18, ⟨rfl, fun _ => rfl⟩, d20⟩
    rw [setBool_defaultD c k v h1 h2 h3 h4 h5 h6 h7 h8 h9 h10 h11 h12 h13 h14 h15 h16 h17 h18 h19, setBool_defaultG g k v h1 h2 h3 h4 h5 h6 h7 h8 h9 h10 h11 h12 h13 h14 h15 h16 h17 h18 h19]
    exact ⟨rfl, d1, d2, d3, d4, d5, d6, d7, d8, d9, d10, d11, d12, d13, d14, d15, d16, d17, d18, d19, d20⟩

theorem parse_rel (c : Dyn.EnumConfig) (g : Gen.EnumConfig) (raw : String)
    (h : rel c g) :
    (Dyn.ParseAnnotation c raw).2 = (Gen.ParseAnnotation g raw).2 ∧
    rel (Dyn.ParseAnnotation c raw).1 (Gen.ParseAnnotation g raw).1 :=
  applyDir_rel c g (classify raw) h

theorem runFrom_rel (anns : List String) :
    ∀ (c : Dyn.EnumConfig) (g : Gen.EnumConfig), rel c g →
      (Dyn.runFrom c anns).2 = (Gen.runFrom g anns).2 ∧
      rel (Dyn.runFrom c anns).1 (Gen.runFrom g anns).1 := by
  induction anns with
  | nil => exact fun c g h => ⟨rfl, h⟩
  | cons a rest ih =>
    intro c g h
    obtain ⟨he, hr⟩ := parse_rel c g a h
    obtain ⟨he2, hr2⟩ := ih (Dyn.ParseAnnotation c a).1 (Gen.ParseAnnotation g a).1 hr
    refine ⟨?_, hr2⟩
    show (Dyn.ParseAnnotation c a).2 :: (Dyn.runFrom (Dyn.ParseAnnotation c a).1 rest).2 =
      (Gen.ParseAnnotation g a).2 :: (Gen.runFrom (Gen.ParseAnnotation g a).1 rest).2
    rw [he, he2]

/-- Claim C10: the dynamically typed and the generic implementation of the
configuration core are behaviorally equivalent: for every sequence of
annotation strings applied to a fresh configuration, both versions of
ParseAnnotation return the same success and error outcomes in order, and
every subsequent GetBool or GetString read with the same default returns
the same result in both versions. -/
theorem versions_equivalent (anns : List String) :
    (Dyn.runFrom Dyn.NewEnumConfig anns).2 = (Gen.runFrom Gen.NewEnumConfig anns).2 ∧
    readsAgree (Dyn.runFrom Dyn.NewEnumConfig anns).1
      (Gen.runFrom Gen.NewEnumConfig anns).1 := by
  obtain ⟨he, hr⟩ := runFrom_rel anns Dyn.NewEnumConfig Gen.NewEnumConfig rel_fresh
  exact ⟨he, rel_readsAgree _ _ hr⟩
